import Mathlib

/-!
Verification of the CSV ingestion and metrics pipeline of the
marketing-analytics dashboard (BMTFormative/Marketingfront).

The repository ships the React client and the shared drizzle schema.
Client-side code (file validation, the upload/process/delete mutations)
is embedded directly from `src/client/src/components/ui/csv-upload.tsx`
and the reports page.  Server-side behaviour (the Metrics Calculator,
the pipeline coordinator and the cascading delete) is not part of the
shipped sources; those definitions are modelled from the spec and are
marked as such in their doc comments.
-/

/-- Embeds the JavaScript `String.prototype.endsWith` used by the file
validation: the string ends with the given suffix, decided on the
character sequences. -/
def strEndsWith (s suffix : String) : Bool :=
  suffix.data.isSuffixOf s.data

/-- Embeds the browser `File` object as used by the validation code in
`csv-upload.tsx`: MIME content type (`file.type`), file name (`file.name`)
and byte size (`file.size`). -/
structure FileInfo where
  type : String
  name : String
  size : Nat
deriving Repr, DecidableEq

/-- Outcome of the client-side validation in `csv-upload.tsx`: either the
file is rejected with a toast ("Invalid file type" / "File too large")
and the function returns without selecting the file, or the file is
accepted and selected for upload. -/
inductive ValidationResult where
  | invalidFormat
  | tooLarge
  | accepted
deriving Repr, DecidableEq

/-- Embeds `validateAndSetFile` (csv-upload.tsx, lines 189-211): first
checks `file.type !== 'text/csv' && !file.name.endsWith('.csv')` and
rejects with "Invalid file type"; then checks
`file.size > 5 * 1024 * 1024` and rejects with "File too large";
otherwise calls `setSelectedFile(file)`. -/
def validateAndSetFile (f : FileInfo) : ValidationResult :=
  if f.type ≠ "text/csv" ∧ strEndsWith f.name ".csv" = false then
    ValidationResult.invalidFormat
  else if f.size > 5 * 1024 * 1024 then
    ValidationResult.tooLarge
  else
    ValidationResult.accepted

/-- Embeds the inline validation of `handleQuickUpload` (csv-upload.tsx,
lines 240-267): the same two checks in the same order, after which the
file is selected and `uploadMutation.mutate(file)` is called. -/
def handleQuickUploadValidate (f : FileInfo) : ValidationResult :=
  if f.type ≠ "text/csv" ∧ strEndsWith f.name ".csv" = false then
    ValidationResult.invalidFormat
  else if f.size > 5 * 1024 * 1024 then
    ValidationResult.tooLarge
  else
    ValidationResult.accepted

/-- In `handleQuickUpload` the upload request (`uploadMutation.mutate`)
is sent exactly when both validation checks pass; a rejected file causes
an early `return`, so no Upload record can be created for it. -/
def quickUploadSendsFile (f : FileInfo) : Bool :=
  decide (handleQuickUploadValidate f = ValidationResult.accepted)

/-- A six-megabyte PNG: its size exceeds the 5 MB ceiling but it also
fails the format check, which runs first. -/
def sixMbPng : FileInfo :=
  { type := "image/png", name := "chart.png", size := 6 * 1024 * 1024 }

/-- A six-megabyte CSV, as in the spec's concrete scenario D. -/
def sixMbCsv : FileInfo :=
  { type := "text/csv", name := "data.csv", size := 6 * 1024 * 1024 }

/-- A small well-formed CSV file. -/
def smallCsv : FileInfo :=
  { type := "text/csv", name := "data.csv", size := 1024 }

/-- Modelled from the spec: a parsed CSV row as consumed by the
server-side Metrics Calculator (spec §4.3), which is not part of the
shipped front-end sources.  The five required numeric columns
(impressions, clicks, conversions, cost, revenue) are carried as exact
rationals. -/
structure Row where
  impressions : ℚ
  clicks : ℚ
  conversions : ℚ
  cost : ℚ
  revenue : ℚ
deriving Repr, DecidableEq

/-- The computed-metrics snapshot carried by a `marketing_metrics` row
(`src/shared/schema.ts`, `marketingMetrics`): conversion rate,
click-through rate, ROI and average cost-per-click. -/
structure MetricsResult where
  clickThroughRate : ℚ
  conversionRate : ℚ
  averageCpc : ℚ
  roi : ℚ
deriving Repr, DecidableEq

/-- Column sum of impressions over the parsed row set. -/
def totalImpressions (rows : List Row) : ℚ :=
  (rows.map Row.impressions).sum

/-- Column sum of clicks over the parsed row set. -/
def totalClicks (rows : List Row) : ℚ :=
  (rows.map Row.clicks).sum

/-- Column sum of conversions over the parsed row set. -/
def totalConversions (rows : List Row) : ℚ :=
  (rows.map Row.conversions).sum

/-- Column sum of cost over the parsed row set. -/
def totalCost (rows : List Row) : ℚ :=
  (rows.map Row.cost).sum

/-- Column sum of revenue over the parsed row set. -/
def totalRevenue (rows : List Row) : ℚ :=
  (rows.map Row.revenue).sum

/-- Modelled from the spec: the server-side Metrics Calculator
(spec §4.3), absent from the shipped sources.  It sums each column over
the full row set before taking ratios, and defines each ratio as 0 when
its denominator is 0:
click_through_rate = total_clicks / total_impressions × 100,
conversion_rate = total_conversions / total_clicks × 100,
average_cpc = total_cost / total_clicks,
roi = (total_revenue − total_cost) / total_cost × 100. -/
def calculateMetrics (rows : List Row) : MetricsResult :=
  let ti := totalImpressions rows
  let tc := totalClicks rows
  let tv := totalConversions rows
  let tcost := totalCost rows
  let trev := totalRevenue rows
  { clickThroughRate := if ti = 0 then 0 else tc / ti * 100
    conversionRate := if tc = 0 then 0 else tv / tc * 100
    averageCpc := if tc = 0 then 0 else tcost / tc
    roi := if tcost = 0 then 0 else (trev - tcost) / tcost * 100 }

/-- Rounding to two decimal places, as the client renders every metric
with `toFixed(2)` (reports page, table cells): the value in hundredths,
rounded half-up. -/
def roundTo2 (q : ℚ) : ℚ :=
  ((⌊q * 100 + 1 / 2⌋ : ℤ) : ℚ) / 100

/-- First row of the spec's concrete scenario A. -/
def scenarioRowA : Row :=
  { impressions := 10000, clicks := 500, conversions := 25
    cost := 1200, revenue := 3000 }

/-- Second row of the spec's concrete scenario A. -/
def scenarioRowB : Row :=
  { impressions := 15000, clicks := 700, conversions := 35
    cost := 1500, revenue := 4200 }

/-- The two-row input of the spec's concrete scenario A. -/
def scenarioA : List Row := [scenarioRowA, scenarioRowB]

/-- Embeds the `csv_uploads` table row (`src/shared/schema.ts`,
`csvUploads`): identifier, filename, owning user, processed flag
(defaulting to false) and upload timestamp. -/
structure CsvUpload where
  id : Nat
  filename : String
  userId : Nat
  processed : Bool
  uploadedAt : Nat
deriving Repr, DecidableEq

/-- Embeds `insertCsvUploadSchema` (`src/shared/schema.ts`):
`createInsertSchema(csvUploads).omit({ id: true, processed: true,
uploadedAt: true })` — the caller-supplied creation payload carries only
a filename and an owning user; it has no processed field at all. -/
structure InsertCsvUpload where
  filename : String
  userId : Nat
deriving Repr, DecidableEq

/-- Creation of an Upload record from an insert payload: the database
fills `id` and `uploadedAt`, and the `processed` column takes its schema
default `false`; the payload cannot influence it. -/
def createCsvUpload (ins : InsertCsvUpload) (i now : Nat) : CsvUpload :=
  { id := i, filename := ins.filename, userId := ins.userId
    processed := false, uploadedAt := now }

/-- Modelled from the spec: the phases of the Pipeline Coordinator's
state machine (spec §4.5), which is server-side and absent from the
shipped sources. -/
inductive Phase where
  | received
  | parsing
  | computing
  | storing
  | processed
  | failed
deriving Repr, DecidableEq

/-- Modelled from the spec: the observable state of one upload's
pipeline run — the current phase, the Upload's `processed` flag, and
whether a MetricRecord for the Upload has been durably written. -/
structure PipeState where
  phase : Phase
  processed : Bool
  hasMetricRecord : Bool
deriving Repr, DecidableEq

/-- The state of a freshly received upload: phase `received`,
processed flag false, no MetricRecord. -/
def pipeInit : PipeState :=
  { phase := Phase.received, processed := false, hasMetricRecord := false }

/-- Modelled from the spec: the events driving the pipeline state
machine (spec §4.5): the explicit process trigger, and
success/failure of the parse, compute and store steps. -/
inductive Act where
  | trigger
  | parseOk
  | parseFail
  | computeOk
  | computeFail
  | storeOk
  | storeFail
deriving Repr, DecidableEq

/-- Modelled from the spec: the transition function of the Pipeline
Coordinator (spec §4.5).  `received → parsing` on an explicit trigger
(a failed upload may be re-triggered, §4.5/§7); parse, compute and
store failures go to `failed` with the processed flag untouched; the
`storing → processed` transition durably writes the MetricRecord and
sets the Upload's processed flag in the same atomic step. -/
def pstep (a : Act) (s : PipeState) : Option PipeState :=
  match a, s.phase with
  | Act.trigger, Phase.received => some { s with phase := Phase.parsing }
  | Act.trigger, Phase.failed => some { s with phase := Phase.parsing }
  | Act.parseOk, Phase.parsing => some { s with phase := Phase.computing }
  | Act.parseFail, Phase.parsing => some { s with phase := Phase.failed }
  | Act.computeOk, Phase.computing => some { s with phase := Phase.storing }
  | Act.computeFail, Phase.computing => some { s with phase := Phase.failed }
  | Act.storeOk, Phase.storing =>
      some { phase := Phase.processed, processed := true, hasMetricRecord := true }
  | Act.storeFail, Phase.storing => some { s with phase := Phase.failed }
  | _, _ => none

/-- States of the pipeline state machine reachable from the freshly
received upload. -/
inductive Reachable : PipeState → Prop where
  | init : Reachable pipeInit
  | step (a : Act) {s t : PipeState} :
      Reachable s → pstep a s = some t → Reachable t

/-- Embeds the `marketing_metrics` table row (`src/shared/schema.ts`,
`marketingMetrics`): identifier, owning user, reference to the
originating `csv_uploads` row, and the four computed figures stored as
numeric strings. -/
structure MetricRecord where
  id : Nat
  userId : Nat
  csvUploadId : Nat
  conversionRate : String
  clickThroughRate : String
  roi : String
  averageCpc : String
deriving Repr, DecidableEq

/-- The persisted state the delete operation acts on: the upload rows
and the metric rows. -/
structure Db where
  uploads : List CsvUpload
  metrics : List MetricRecord
deriving Repr, DecidableEq

/-- Modelled from the spec: the server-side handler of
`DELETE /api/upload-csv/:id` (invoked by `deleteCsvMutation` on the
reports page), absent from the shipped sources; per spec §3 it removes
the Upload and cascades to exactly the MetricRecords whose upload
reference points to it. -/
def deleteUploadCascade (uid : Nat) (db : Db) : Db :=
  { uploads := db.uploads.filter (fun u => u.id ≠ uid)
    metrics := db.metrics.filter (fun m => m.csvUploadId ≠ uid) }

/-- A metric record attached to upload 1. -/
def metricRecOne : MetricRecord :=
  { id := 10, userId := 1, csvUploadId := 1, conversionRate := "5.00"
    clickThroughRate := "4.80", roi := "166.67", averageCpc := "2.25" }

/-- A metric record attached to upload 2. -/
def metricRecTwo : MetricRecord :=
  { id := 11, userId := 1, csvUploadId := 2, conversionRate := "3.00"
    clickThroughRate := "2.10", roi := "50.00", averageCpc := "1.10" }

/-- A sample database with two uploads and one metric record each. -/
def sampleDb : Db :=
  { uploads :=
      [createCsvUpload { filename := "a.csv", userId := 1 } 1 0,
       createCsvUpload { filename := "b.csv", userId := 1 } 2 0]
    metrics := [metricRecOne, metricRecTwo] }

/-- Observable effects of a client-side mutation function: a timer wait
or an HTTP request to the server. -/
inductive BrowserEffect where
  | delay (ms : Nat)
  | networkRequest (method url : String)
deriving Repr, DecidableEq

/-- Whether an effect is an HTTP request. -/
def isNetworkRequest : BrowserEffect → Bool
  | BrowserEffect.networkRequest _ _ => true
  | _ => false

/-- The resolved value and effect trace of one run of a mutation
function. -/
structure ProcessRun where
  effects : List BrowserEffect
  success : Bool
  csvId : Nat
deriving Repr, DecidableEq

/-- Embeds `processMutation.mutationFn` (csv-upload.tsx, lines 103-126):
besides updating the local progress bar, it only awaits a fixed
2000 ms timeout ("We'll use the existing processing on the server.
Just simulate a delay here to show progress") and then resolves with
`{ success: true, csvId }`; it contains no fetch or XHR call. -/
def processMutationFn (csvId : Nat) : ProcessRun :=
  { effects := [BrowserEffect.delay 2000], success := true, csvId := csvId }

/-- Embeds the effect of `uploadMutation.mutationFn` (csv-upload.tsx,
lines 37-74) for contrast: it does POST the file to `/api/upload-csv/`. -/
def uploadMutationEffects : List BrowserEffect :=
  [BrowserEffect.networkRequest "POST" "/api/upload-csv/"]

/-- Normal form of the validation: the file is rejected with
`InvalidFormat` unless it is CSV-shaped, then rejected with `TooLarge`
when oversized, else accepted. -/
theorem validate_cases (f : FileInfo) :
    validateAndSetFile f =
      if f.type = "text/csv" ∨ strEndsWith f.name ".csv" = true then
        (if f.size > 5 * 1024 * 1024 then ValidationResult.tooLarge
         else ValidationResult.accepted)
      else ValidationResult.invalidFormat := by
  unfold validateAndSetFile
  by_cases h : f.type = "text/csv" ∨ strEndsWith f.name ".csv" = true
  · rw [if_pos h, if_neg]
    rintro ⟨hne, hfalse⟩
    rcases h with h | h
    · exact hne h
    · rw [h] at hfalse; cases hfalse
  · rw [if_neg h, if_pos]
    push_neg at h
    exact ⟨h.1, by simpa using h.2⟩

/-- The two validation paths are the same function. -/
theorem quick_eq_validate (f : FileInfo) :
    handleQuickUploadValidate f = validateAndSetFile f := rfl

/-- C3 counterexample: the claim says a file is rejected with `TooLarge`
if and only if its size exceeds 5 × 1024 × 1024 bytes.  The 6 MB PNG
exceeds the ceiling, yet both validation paths reject it with
`InvalidFormat`, because the format check runs before the size check. -/
theorem c3_toolarge_iff_counterexample :
    sixMbPng.size > 5 * 1024 * 1024 ∧
    validateAndSetFile sixMbPng ≠ ValidationResult.tooLarge ∧
    handleQuickUploadValidate sixMbPng ≠ ValidationResult.tooLarge := by
  decide

/-- C3 amended: a file is rejected with `TooLarge` if and only if it
passes the format check (content type "text/csv" or name ending ".csv")
and its size exceeds 5 × 1024 × 1024 bytes; any file at or below the
ceiling passes the size check (is never rejected with `TooLarge`), and a
rejected file is not selected for upload, so no Upload record is created
for it. -/
theorem c3_size_ceiling (f : FileInfo) :
    (validateAndSetFile f = ValidationResult.tooLarge ↔
      ((f.type = "text/csv" ∨ strEndsWith f.name ".csv" = true) ∧
        f.size > 5 * 1024 * 1024)) ∧
    (f.size ≤ 5 * 1024 * 1024 → validateAndSetFile f ≠ ValidationResult.tooLarge) ∧
    (validateAndSetFile f = ValidationResult.tooLarge → quickUploadSendsFile f = false) := by
  unfold quickUploadSendsFile
  rw [quick_eq_validate, validate_cases]
  by_cases hfmt : f.type = "text/csv" ∨ strEndsWith f.name ".csv" = true
  · rw [if_pos hfmt]
    by_cases hsz : f.size > 5 * 1024 * 1024
    · rw [if_pos hsz]
      exact ⟨⟨fun _ => ⟨hfmt, hsz⟩, fun _ => rfl⟩,
             fun hle => absurd hsz (by omega),
             fun _ => by decide⟩
    · rw [if_neg hsz]
      exact ⟨⟨fun h => absurd h (by decide), fun hc => absurd hc.2 hsz⟩,
             fun _ h => absurd h (by decide),
             fun h => absurd h (by decide)⟩
  · rw [if_neg hfmt]
    exact ⟨⟨fun h => absurd h (by decide), fun hc => absurd hc.1 hfmt⟩,
           fun _ h => absurd h (by decide),
           fun h => absurd h (by decide)⟩

/-- C3 witness: the amended theorem applied to the 6 MB CSV of the
spec's scenario D, which passes the format check and exceeds the
ceiling, hence is rejected with `TooLarge` and never uploaded. -/
theorem c3_size_ceiling_witness :
    validateAndSetFile sixMbCsv = ValidationResult.tooLarge ∧
    quickUploadSendsFile sixMbCsv = false :=
  ⟨((c3_size_ceiling sixMbCsv).1).2 ⟨Or.inl rfl, by decide⟩,
   ((c3_size_ceiling sixMbCsv).2).2 (((c3_size_ceiling sixMbCsv).1).2 ⟨Or.inl rfl, by decide⟩)⟩

/-- C4: a file passes the format check (is not rejected with
`InvalidFormat`) if and only if its content type is "text/csv" or its
name ends in ".csv"; a file satisfying neither is rejected with
`InvalidFormat`, is not selected, and no upload request is sent for it. -/
theorem c4_format_check (f : FileInfo) :
    (validateAndSetFile f ≠ ValidationResult.invalidFormat ↔
      (f.type = "text/csv" ∨ strEndsWith f.name ".csv" = true)) ∧
    (¬(f.type = "text/csv" ∨ strEndsWith f.name ".csv" = true) →
      validateAndSetFile f = ValidationResult.invalidFormat ∧
      quickUploadSendsFile f = false) := by
  unfold quickUploadSendsFile
  rw [quick_eq_validate, validate_cases]
  by_cases hfmt : f.type = "text/csv" ∨ strEndsWith f.name ".csv" = true
  · rw [if_pos hfmt]
    refine ⟨⟨fun _ => hfmt, fun _ => ?_⟩, fun h => absurd hfmt h⟩
    by_cases hsz : f.size > 5 * 1024 * 1024
    · rw [if_pos hsz]; decide
    · rw [if_neg hsz]; decide
  · rw [if_neg hfmt]
    exact ⟨⟨fun h => absurd rfl h, fun h => absurd h hfmt⟩,
           fun _ => ⟨rfl, by decide⟩⟩

/-- C4 witness: the format-check theorem applied to a PNG file, which is
rejected with `InvalidFormat` and never uploaded. -/
theorem c4_format_check_witness :
    validateAndSetFile { type := "image/png", name := "pic.png", size := 10 } =
      ValidationResult.invalidFormat ∧
    quickUploadSendsFile { type := "image/png", name := "pic.png", size := 10 } = false :=
  (c4_format_check { type := "image/png", name := "pic.png", size := 10 }).2 (by decide)

/-- C10: the two client-side validation paths are equivalent: for every
file, `validateAndSetFile` and the inline validation of
`handleQuickUpload` compute the same outcome, and both accept a file
exactly when it is CSV-shaped (content type "text/csv" or name ending
".csv") and at most 5 × 1024 × 1024 bytes. -/
theorem c10_validation_paths_equivalent (f : FileInfo) :
    validateAndSetFile f = handleQuickUploadValidate f ∧
    (validateAndSetFile f = ValidationResult.accepted ↔
      ((f.type = "text/csv" ∨ strEndsWith f.name ".csv" = true) ∧
        f.size ≤ 5 * 1024 * 1024)) := by
  refine ⟨(quick_eq_validate f).symm, ?_⟩
  rw [validate_cases]
  by_cases hfmt : f.type = "text/csv" ∨ strEndsWith f.name ".csv" = true
  · rw [if_pos hfmt]
    by_cases hsz : f.size > 5 * 1024 * 1024
    · rw [if_pos hsz]
      exact ⟨fun h => absurd h (by decide), fun hc => absurd hsz (by omega)⟩
    · rw [if_neg hsz]
      exact ⟨fun _ => ⟨hfmt, by omega⟩, fun _ => rfl⟩
  · rw [if_neg hfmt]
    exact ⟨fun h => absurd h (by decide), fun hc => absurd hc.1 hfmt⟩

/-- C10 witness: both validation paths accept the small CSV file. -/
theorem c10_validation_paths_equivalent_witness :
    validateAndSetFile smallCsv = handleQuickUploadValidate smallCsv ∧
    validateAndSetFile smallCsv = ValidationResult.accepted :=
  ⟨(c10_validation_paths_equivalent smallCsv).1,
   ((c10_validation_paths_equivalent smallCsv).2).2 ⟨Or.inl rfl, by decide⟩⟩

/-- Column sums of the spec's scenario A input: 25000 impressions,
1200 clicks, 60 conversions, cost 2700, revenue 7200. -/
theorem totals_scenarioA :
    totalImpressions scenarioA = 25000 ∧ totalClicks scenarioA = 1200 ∧
    totalConversions scenarioA = 60 ∧ totalCost scenarioA = 2700 ∧
    totalRevenue scenarioA = 7200 := by
  refine ⟨?_, ?_, ?_, ?_, ?_⟩ <;>
    norm_num [totalImpressions, totalClicks, totalConversions, totalCost,
      totalRevenue, scenarioA, scenarioRowA, scenarioRowB]

/-- The calculator's output on scenario A, in exact rationals. -/
theorem calculateMetrics_scenarioA :
    calculateMetrics scenarioA =
      { clickThroughRate := 24 / 5, conversionRate := 5
        averageCpc := 9 / 4, roi := 500 / 3 } := by
  obtain ⟨h1, h2, h3, h4, h5⟩ := totals_scenarioA
  unfold calculateMetrics
  rw [h1, h2, h3, h4, h5]
  norm_num [MetricsResult.mk.injEq]

/-- Rounding the exact scenario A ROI of 500/3 to two decimals gives
166.67. -/
theorem roundTo2_roi_scenarioA : roundTo2 (500 / 3 : ℚ) = 16667 / 100 := by
  unfold roundTo2
  have hfl : ⌊(500 / 3 : ℚ) * 100 + 1 / 2⌋ = 16667 := by
    rw [Int.floor_eq_iff]
    constructor <;> norm_num
  rw [hfl]
  norm_num

/-- C1: when summed impressions and summed clicks are positive the
calculator returns click_through_rate = 100 × total_clicks /
total_impressions and conversion_rate = 100 × total_conversions /
total_clicks, computed over column sums of the full row set; on the
two-row scenario A input it returns CTR = 4.80, conversion rate = 5.00,
average CPC = 2.25, and an exact ROI of 500/3, which renders as 166.67
under the client's two-decimal formatting. -/
theorem c1_summed_before_ratio (rows : List Row)
    (hi : 0 < totalImpressions rows) (hc : 0 < totalClicks rows) :
    (calculateMetrics rows).clickThroughRate =
        100 * totalClicks rows / totalImpressions rows ∧
    (calculateMetrics rows).conversionRate =
        100 * totalConversions rows / totalClicks rows ∧
    (calculateMetrics scenarioA).clickThroughRate = 24 / 5 ∧
    (calculateMetrics scenarioA).conversionRate = 5 ∧
    (calculateMetrics scenarioA).averageCpc = 9 / 4 ∧
    (calculateMetrics scenarioA).roi = 500 / 3 ∧
    roundTo2 (calculateMetrics scenarioA).roi = 16667 / 100 := by
  refine ⟨?_, ?_, by rw [calculateMetrics_scenarioA], by rw [calculateMetrics_scenarioA],
    by rw [calculateMetrics_scenarioA], by rw [calculateMetrics_scenarioA],
    by rw [calculateMetrics_scenarioA]; exact roundTo2_roi_scenarioA⟩
  · show (if totalImpressions rows = 0 then 0
        else totalClicks rows / totalImpressions rows * 100) =
      100 * totalClicks rows / totalImpressions rows
    rw [if_neg (ne_of_gt hi), div_mul_eq_mul_div, mul_comm]
  · show (if totalClicks rows = 0 then 0
        else totalConversions rows / totalClicks rows * 100) =
      100 * totalConversions rows / totalClicks rows
    rw [if_neg (ne_of_gt hc), div_mul_eq_mul_div, mul_comm]

/-- C1 witness: the theorem applied to the scenario A input itself,
whose totals (25000 impressions, 1200 clicks) are positive. -/
theorem c1_summed_before_ratio_witness :
    (calculateMetrics scenarioA).clickThroughRate =
        100 * totalClicks scenarioA / totalImpressions scenarioA ∧
    (calculateMetrics scenarioA).conversionRate = 5 :=
  ⟨(c1_summed_before_ratio scenarioA
      (by rw [totals_scenarioA.1]; norm_num)
      (by rw [totals_scenarioA.2.1]; norm_num)).1,
   (c1_summed_before_ratio scenarioA
      (by rw [totals_scenarioA.1]; norm_num)
      (by rw [totals_scenarioA.2.1]; norm_num)).2.2.2.1⟩

/-- C2: the calculator's zero-denominator guards: when total clicks are
0 it returns average_cpc = 0 and conversion_rate = 0, when total
impressions are 0 it returns click_through_rate = 0, and when total cost
is 0 it returns roi = 0; every branch is total, so no division by zero
is ever performed and no exception raised. -/
theorem c2_zero_denominator_guards (rows : List Row) :
    (totalClicks rows = 0 →
      (calculateMetrics rows).averageCpc = 0 ∧
      (calculateMetrics rows).conversionRate = 0) ∧
    (totalImpressions rows = 0 → (calculateMetrics rows).clickThroughRate = 0) ∧
    (totalCost rows = 0 → (calculateMetrics rows).roi = 0) := by
  unfold calculateMetrics
  refine ⟨fun h => ⟨?_, ?_⟩, fun h => ?_, fun h => ?_⟩ <;> simp [h]

/-- C2 witness: the guards evaluated on the empty row sequence, whose
totals are all 0. -/
theorem c2_zero_denominator_guards_witness :
    (calculateMetrics []).averageCpc = 0 ∧
    (calculateMetrics []).conversionRate = 0 ∧
    (calculateMetrics []).clickThroughRate = 0 ∧
    (calculateMetrics []).roi = 0 :=
  ⟨((c2_zero_denominator_guards []).1 (by simp [totalClicks])).1,
   ((c2_zero_denominator_guards []).1 (by simp [totalClicks])).2,
   (c2_zero_denominator_guards []).2.1 (by simp [totalImpressions]),
   (c2_zero_denominator_guards []).2.2 (by simp [totalCost])⟩

/-- C8: the Metrics Calculator is a deterministic pure function of the
parsed row sequence: running it twice on the same sequence yields
identical output; moreover its output is determined by the five column
sums alone. -/
theorem c8_deterministic (rows : List Row) :
    calculateMetrics rows = calculateMetrics rows ∧
    (∀ rows₂ : List Row,
      totalImpressions rows = totalImpressions rows₂ →
      totalClicks rows = totalClicks rows₂ →
      totalConversions rows = totalConversions rows₂ →
      totalCost rows = totalCost rows₂ →
      totalRevenue rows = totalRevenue rows₂ →
      calculateMetrics rows = calculateMetrics rows₂) := by
  refine ⟨rfl, fun rows₂ h1 h2 h3 h4 h5 => ?_⟩
  unfold calculateMetrics
  rw [h1, h2, h3, h4, h5]

/-- C8 witness: the calculator run twice on scenario A gives the same
result, and the row order does not matter because the column sums
agree. -/
theorem c8_deterministic_witness :
    calculateMetrics scenarioA = calculateMetrics scenarioA ∧
    calculateMetrics scenarioA = calculateMetrics [scenarioRowB, scenarioRowA] :=
  ⟨(c8_deterministic scenarioA).1,
   (c8_deterministic scenarioA).2 [scenarioRowB, scenarioRowA]
     (by norm_num [totalImpressions, scenarioA, scenarioRowA, scenarioRowB])
     (by norm_num [totalClicks, scenarioA, scenarioRowA, scenarioRowB])
     (by norm_num [totalConversions, scenarioA, scenarioRowA, scenarioRowB])
     (by norm_num [totalCost, scenarioA, scenarioRowA, scenarioRowB])
     (by norm_num [totalRevenue, scenarioA, scenarioRowA, scenarioRowB])⟩

/-- C5: every Upload record is created with processed = false — the
insert payload type has no processed field, so the caller cannot set it
— and in the pipeline the flag is only ever changed by the
`storing → processed` transition (the durable MetricRecord write). -/
theorem c5_processed_starts_false (ins : InsertCsvUpload) (i now : Nat) :
    (createCsvUpload ins i now).processed = false ∧
    (∀ (a : Act) (s t : PipeState), pstep a s = some t →
      t.processed ≠ s.processed → a = Act.storeOk) := by
  refine ⟨rfl, fun a s t hst hne => ?_⟩
  cases a <;> cases hph : s.phase <;>
    simp [pstep, hph] at hst <;>
    first
      | rfl
      | (subst hst; simp at hne)

/-- C5 witness: a concrete insert payload yields an unprocessed record,
and the concrete `storeOk` transition is the only flag flip from the
storing state. -/
theorem c5_processed_starts_false_witness :
    (createCsvUpload { filename := "data.csv", userId := 1 } 1 0).processed = false ∧
    Act.storeOk = Act.storeOk :=
  ⟨(c5_processed_starts_false { filename := "data.csv", userId := 1 } 1 0).1,
   (c5_processed_starts_false { filename := "data.csv", userId := 1 } 1 0).2
     Act.storeOk
     { phase := Phase.storing, processed := false, hasMetricRecord := false }
     { phase := Phase.processed, processed := true, hasMetricRecord := true }
     rfl (by simp)⟩

/-- C6: in every reachable state of the pipeline state machine the
Upload's processed flag is true exactly when a MetricRecord for the
Upload exists: there is no state with processed = true but no
MetricRecord, and none with a MetricRecord but processed = false
— the `storing → processed` transition sets both atomically. -/
theorem c6_processed_iff_record (s : PipeState) (h : Reachable s) :
    s.processed = true ↔ s.hasMetricRecord = true := by
  induction h with
  | init => simp [pipeInit]
  | step a hr hst ih =>
    rename_i s t
    cases a <;> cases hph : s.phase <;>
      simp [pstep, hph] at hst <;>
      (subst hst; simp_all)

/-- C6 witness: the fully processed state reached by the successful run
trigger → parseOk → computeOk → storeOk satisfies the invariant. -/
theorem c6_processed_iff_record_witness :
    ({ phase := Phase.processed, processed := true, hasMetricRecord := true } :
      PipeState).processed = true ↔
    ({ phase := Phase.processed, processed := true, hasMetricRecord := true } :
      PipeState).hasMetricRecord = true :=
  c6_processed_iff_record _
    (Reachable.step Act.storeOk
      (Reachable.step Act.computeOk
        (Reachable.step Act.parseOk
          (Reachable.step Act.trigger Reachable.init rfl) rfl) rfl) rfl)

/-- C7: deleting an Upload removes exactly the MetricRecords whose
upload reference points to it: afterwards no MetricRecord for that
Upload remains, every MetricRecord of any other Upload is still
present, and no MetricRecord appears that was not there before. -/
theorem c7_cascade_delete_exact (uid : Nat) (db : Db) :
    (∀ m ∈ (deleteUploadCascade uid db).metrics, m.csvUploadId ≠ uid) ∧
    (∀ m ∈ db.metrics, m.csvUploadId ≠ uid →
      m ∈ (deleteUploadCascade uid db).metrics) ∧
    (∀ m ∈ (deleteUploadCascade uid db).metrics, m ∈ db.metrics) := by
  simp only [deleteUploadCascade, List.mem_filter, decide_eq_true_eq]
  exact ⟨fun m hm => hm.2, fun m hm hne => ⟨hm, hne⟩, fun m hm => hm.1⟩

/-- C7 witness: deleting upload 1 from the sample database leaves no
record for upload 1 and keeps upload 2's record. -/
theorem c7_cascade_delete_exact_witness :
    (∀ m ∈ (deleteUploadCascade 1 sampleDb).metrics, m.csvUploadId ≠ 1) ∧
    metricRecTwo ∈ (deleteUploadCascade 1 sampleDb).metrics :=
  ⟨(c7_cascade_delete_exact 1 sampleDb).1,
   (c7_cascade_delete_exact 1 sampleDb).2.1 metricRecTwo (by decide) (by decide)⟩

/-- C9: the client-side process step performs no network request: for
every csvId its mutation function's trace is exactly one fixed 2000 ms
delay and it always resolves with success = true and the same csvId, so
`onSuccess` (the "Processing complete" toast) fires for every upload id
regardless of any server-side outcome. -/
theorem c9_process_step_no_network (csvId : Nat) :
    (processMutationFn csvId).success = true ∧
    (processMutationFn csvId).csvId = csvId ∧
    (processMutationFn csvId).effects = [BrowserEffect.delay 2000] ∧
    (processMutationFn csvId).effects.all (fun e => !isNetworkRequest e) = true :=
  ⟨rfl, rfl, rfl, rfl⟩

/-- C9 witness: the process step evaluated at upload id 7. -/
theorem c9_process_step_no_network_witness :
    (processMutationFn 7).success = true ∧
    (processMutationFn 7).csvId = 7 ∧
    (processMutationFn 7).effects = [BrowserEffect.delay 2000] ∧
    (processMutationFn 7).effects.all (fun e => !isNetworkRequest e) = true :=
  c9_process_step_no_network 7
